import Mathlib

/-!
Shallow embedding of the WebMotion dashboard (assets/js/dashboard.js,
class WebMotionDashboard) and proofs about its tab controller, panel
renderer, overlay surfaces and timer formatting.

Conventions of the embedding:
* DOM elements that the class manipulates are carried explicitly in a
  `Dashboard` state record (trigger buttons, tab panels, the notification
  modal, the user dropdown, the focused element, and the list of custom
  events dispatched so far).
* JS exceptions that can actually fire inside the modelled code paths are
  represented with `Except JsError`; a `try / catch` boundary that converts
  an exception into a `dashboardError` event is modelled by appending that
  event to the event list.
* Machine numbers are `Nat` (tab ids are positive integers, elapsed time is
  a millisecond count); JS string interpolation of `undefined` produces the
  text "undefined", which `interpOpt` reproduces.
-/

namespace WebMotion

/-- A country record as stored in a tab configuration:
`country: \x7b code, name \x7d` in the JS object literal. -/
structure Country where
  code : String
  name : String
deriving Repr, DecidableEq

/-- One entry of `this.config.tabs`.  `country` and `addressType` are
`Option` because a JS object may simply lack the property (the value is
then `undefined`), e.g. a tab added via `addTab(\x7bid:7, title:"X"\x7d)`. -/
structure TabConfig where
  id : Nat
  title : String
  country : Option Country := none
  addressType : Option String := none
deriving Repr, DecidableEq

/-- A partial descriptor handed to `updateTabContent`: each field is
present (`some`) or absent.  JS merges it over the stored descriptor with
an object spread `\x7b ...old, ...newConfig \x7d`. -/
structure PartialTab where
  id : Option Nat := none
  title : Option String := none
  country : Option Country := none
  addressType : Option String := none
deriving Repr, DecidableEq

/-- One cell of a row template (`contentRows` / `sectionRows` entries):
`\x7b heading, value, isCountry?, isAddressType? \x7d`. -/
structure CellSpec where
  heading : String
  value : String
  isCountry : Bool := false
  isAddressType : Bool := false
deriving Repr, DecidableEq

/-- The configuration record built in the constructor: the ordered tab
descriptors plus the two shared row templates. -/
structure Config where
  tabs : List TabConfig
  contentRows : List (List CellSpec)
  sectionRows : List (List CellSpec)
deriving Repr, DecidableEq

/-- The literal configuration from the `WebMotionDashboard` constructor. -/
def defaultConfig : Config :=
  { tabs :=
      [ { id := 1, title := "Lorem Ipsum",
          country := some { code := "gb", name := "United Kingdom" },
          addressType := some "Residential" },
        { id := 2, title := "Tab 2 Content",
          country := some { code := "us", name := "United States" },
          addressType := some "Commercial" },
        { id := 3, title := "Tab 3 Content",
          country := some { code := "ca", name := "Canada" },
          addressType := some "Industrial" },
        { id := 4, title := "Tab 4 Content",
          country := some { code := "au", name := "Australia" },
          addressType := some "Mixed" },
        { id := 5, title := "Tab 5 Content",
          country := some { code := "de", name := "Germany" },
          addressType := some "Rural" },
        { id := 6, title := "Tab 6 Content",
          country := some { code := "fr", name := "France" },
          addressType := some "Urban" } ],
    contentRows :=
      [ [ { heading := "Lorem Ipsum", value := "Simply dummy text" },
          { heading := "Dummy text", value := "-" } ],
        [ { heading := "Lorem Ipsum", value := "Simply dummy text" },
          { heading := "Lorem Ipsum", value := "Simply dummy text" } ],
        [ { heading := "Lorem Ipsum", value := "Simply dummy text" },
          { heading := "Lorem Ipsum", value := "Simply dummy text" } ],
        [ { heading := "Lorem Ipsum", value := "Simply dummy text" },
          { heading := "Lorem Ipsum", value := "Simply dummy text" },
          { heading := "Country", value := "", isCountry := true } ],
        [ { heading := "Lorem Ipsum", value := "Simply dummy text" },
          { heading := "Lorem Ipsum", value := "Simply dummy text" },
          { heading := "Lorem Ipsum", value := "Simply dummy text" } ] ],
    sectionRows :=
      [ [ { heading := "Lorem Ipsum", value := "Simply dummy text" },
          { heading := "Address Type", value := "", isAddressType := true },
          { heading := "Lorem Ipsum", value := "Simply dummy text" } ],
        [ { heading := "Lorem Ipsum", value := "Simply dummy text" },
          { heading := "Lorem Ipsum", value := "Simply dummy text" },
          { heading := "Lorem Ipsum", value := "Simply dummy text" } ],
        [ { heading := "Lorem Ipsum", value := "Simply dummy text" },
          { heading := "Lorem Ipsum", value := "Simply dummy text" },
          { heading := "Lorem Ipsum", value := "Simply dummy text" } ] ] }

/-- A JS runtime exception.  Accessing a property of `undefined` raises a
`TypeError`; `throw new Error(msg)` raises a plain `Error`. -/
inductive JsError where
  | typeError (message : String)
  | error (message : String)
deriving Repr, DecidableEq

/-- The `message` property of a JS error. -/
def JsError.message : JsError → String
  | .typeError m => m
  | .error m => m

/-- JS template-literal interpolation of a value that may be `undefined`:
`interpOpt none` is the text "undefined". -/
def interpOpt : Option String → String
  | some s => s
  | none => "undefined"

/-- Left-to-right effectful map, mirroring how `Array.prototype.map`
propagates an exception thrown by the callback: elements after the first
failing one are not evaluated. -/
def mapExcept (f : α → Except JsError β) : List α → Except JsError (List β)
  | [] => .ok []
  | a :: as => do
    let b ← f a
    let bs ← mapExcept f as
    pure (b :: bs)

/-- JS `String.prototype.repeat`: `n` copies of `s` concatenated. -/
def jsRepeat (s : String) (n : Nat) : String :=
  String.join (List.replicate n s)

/-! ## Panel rendering (populateTabContent / generateContentRows /
generateSectionRows)

The JS builds HTML strings with template literals; the string literals
below reproduce them exactly, including the indentation of the source. -/

/-- The per-tab disambiguating label:
`const prefix = tabConfig.id === 1 ? :empty: : (Tab :id: - )`. -/
def tabPfx (t : TabConfig) : String :=
  if t.id = 1 then "" else "Tab " ++ toString t.id ++ " - "

/-- The TypeError raised by `tabConfig.country.code` when `country` is
`undefined`. -/
def countryUndefErr : JsError :=
  .typeError "Cannot read properties of undefined (reading code)"

/-- The `value` template for the special country column, given a present
`tabConfig.country`. -/
def countryValueHtml (c : Country) : String :=
  "\n                        <img src=\"https://flagcdn.com/w20/" ++ c.code
  ++ ".png\" \n                             alt=\"" ++ c.name
  ++ " Flag\" \n                             class=\"tab-content__country-flag\"\n                             loading=\"lazy\">\n                        "
  ++ c.name ++ "\n                    "

/-- The template returned for each cell of a row (identical literal in
`generateContentRows` and `generateSectionRows`). -/
def cellItemHtml (heading value : String) : String :=
  "\n                    <div class=\"tab-content__item\">\n                        <div class=\"tab-content__item-heading\">"
  ++ heading
  ++ "</div>\n                        <div class=\"tab-content__item-value\">"
  ++ value ++ "</div>\n                    </div>\n                "

/-- One cell of a main content row.  The country marker reads
`tabConfig.country.code`, which throws if `country` is `undefined`. -/
def renderContentCell (t : TabConfig) (pfx : String) (item : CellSpec) :
    Except JsError String :=
  if item.isCountry then
    match t.country with
    | none => .error countryUndefErr
    | some c => .ok (cellItemHtml (pfx ++ "Country") (countryValueHtml c))
  else
    .ok (cellItemHtml (pfx ++ item.heading) item.value)

/-- The literal `emptyColumnHTML`. -/
def emptyColumnHTML : String := "<div class=\"tab-content__item\"></div>"

/-- The row wrapper of `generateContentRows`:
`Math.max(0, 3 - row.length)` is truncated `Nat` subtraction. -/
def renderContentRow (t : TabConfig) (pfx : String) (row : List CellSpec) :
    Except JsError String := do
  let cols ← mapExcept (renderContentCell t pfx) row
  let emptyColumns := 3 - row.length
  pure ("\n                <div class=\"tab-content__row\">\n                    "
    ++ String.join cols
    ++ "\n                    " ++ jsRepeat emptyColumnHTML emptyColumns
    ++ "\n                </div>\n            ")

/-- Source method `generateContentRows(tabConfig, prefix)`. -/
def generateContentRows (cfg : Config) (t : TabConfig) (pfx : String) :
    Except JsError String := do
  let rows ← mapExcept (renderContentRow t pfx) cfg.contentRows
  pure (String.join rows)

/-- One cell of a section row.  The address-type marker interpolates
`tabConfig.addressType`, which is the text "undefined" when absent. -/
def renderSectionCell (t : TabConfig) (pfx : String) (item : CellSpec) : String :=
  if item.isAddressType then
    cellItemHtml (pfx ++ "Address Type") (interpOpt t.addressType)
  else
    cellItemHtml (pfx ++ item.heading) item.value

/-- The row wrapper of `generateSectionRows`. -/
def renderSectionRow (t : TabConfig) (pfx : String) (row : List CellSpec) : String :=
  "\n                <div class=\"tab-content__row\">\n                    "
  ++ String.join (row.map (renderSectionCell t pfx))
  ++ "\n                </div>\n            "

/-- Source method `generateSectionRows(tabConfig, prefix)`. -/
def generateSectionRows (cfg : Config) (t : TabConfig) (pfx : String) : String :=
  String.join (cfg.sectionRows.map (renderSectionRow t pfx))

/-- The outer template assigned to `panel.innerHTML` (grouped to the right
so that the heading and section-title segments are visible subterms; the
concatenated text is exactly the source template literal). -/
def panelHtml (title pfx content sect : String) : String :=
  "\n            <h2 class=\"tab-content__heading\">"
  ++ (title
  ++ ("</h2>\n            <div class=\"tab-content__rows\">\n                "
  ++ (content
  ++ ("\n                \n                <!-- Section Heading -->\n                <div class=\"tab-content__section-heading\">\n                    "
  ++ ("<h3 class=\"tab-content__section-title\">"
  ++ (pfx
  ++ ("Lorem Ipsum</h3>"
  ++ ("\n                </div>\n                \n                "
  ++ (sect
  ++ "\n            </div>\n        ")))))))))

/-- Source method `populateTabContent(panel, tabConfig)`: the HTML assigned to the panel,
or the exception thrown while evaluating the template (in which case the
assignment to `innerHTML` never happens). -/
def populateTabContent (cfg : Config) (t : TabConfig) : Except JsError String :=
  match generateContentRows cfg t (tabPfx t) with
  | .error e => .error e
  | .ok content =>
      .ok (panelHtml t.title (tabPfx t) content (generateSectionRows cfg t (tabPfx t)))

/-! ## The dashboard state

The DOM pieces the class manipulates, made explicit.  A trigger button has
element id `tab-N` and carries the active class and the `aria-selected`
attribute; a panel has element id `tab-panel-N` and carries the active
class and its `innerHTML`.  Element ids of the form `tab-N` round-trip
through `extractTabId` (regex for trailing digits), so buttons and panels
store the numeric id directly. -/

/-- A tab trigger button (`.tab-navigation__button`, element id `tab-N`). -/
structure ButtonState where
  tabId : Nat
  active : Bool
  ariaSelected : String
deriving Repr, DecidableEq

/-- A tab panel (`.tab-content`, element id `tab-panel-N`). -/
structure PanelState where
  tabId : Nat
  active : Bool
  html : String
deriving Repr, DecidableEq

/-- The notification modal element: its active class and `aria-hidden`. -/
structure NotifModalState where
  active : Bool
  ariaHidden : String
deriving Repr, DecidableEq

/-- The user dropdown: the active class on `.user-dropdown` and the
`aria-hidden` attribute of its menu element. -/
structure DropdownState where
  active : Bool
  menuAriaHidden : String
deriving Repr, DecidableEq

/-- Where document focus currently sits. -/
inductive Focus where
  | noFocus
  | tabButton (index : Nat)
  | notificationBtn
  | userDropdownTrigger
deriving Repr, DecidableEq

/-- A custom event dispatched via `dispatchCustomEvent`, with the detail
fields the claims are about (the JS detail also carries timestamps, a
stack trace and the user agent, which are outside this model). -/
inductive Event where
  | dashboardInitialized (tabCount : Nat)
  | tabChanged (tabId : Nat) (tabTitle : Option String)
  | tabAdded (tabId : Nat)
  | tabRemoved (tabId : Nat)
  | tabContentUpdated (tabId : Nat)
  | dashboardError (message : String) (context : String)
  | notificationModalOpened
  | notificationModalClosed
  | userDropdownOpened
  | userDropdownClosed
deriving Repr, DecidableEq

/-- The mutable state of the dashboard page: the configuration object plus
the DOM pieces the class reads and writes.  `events` is the list of custom
events dispatched so far, oldest first. -/
structure Dashboard where
  config : Config
  buttons : List ButtonState
  panels : List PanelState
  notifModal : NotifModalState
  dropdown : DropdownState
  focus : Focus
  events : List Event
deriving Repr, DecidableEq

/-- Update of the first list element satisfying `p` (what a mutation of the
element returned by `getElementById` does when duplicate ids exist). -/
def updateFirst (p : α → Bool) (f : α → α) : List α → List α
  | [] => []
  | a :: as => if p a then f a :: as else a :: updateFirst p f as

/-- Source method `getActiveTabId()`: the trailing-digit id of the first
button carrying the active class, or none. -/
def getActiveTabId (s : Dashboard) : Option Nat :=
  (s.buttons.find? fun b => b.active).map (·.tabId)

/-! ## TabController operations -/

/-- Source method `activateTab(tabId)`.  The active markers are cleared
from every button and panel before the target is looked up; if the target
button or panel is missing the `throw` is caught by the surrounding `try`
and converted into a `dashboardError` event with context
`tab-activation` — but the cleared markers stay cleared. -/
def activateTab (s : Dashboard) (tabId : Nat) : Dashboard :=
  let buttons := s.buttons.map fun b =>
    { b with active := false, ariaSelected := "false" }
  let panels := s.panels.map fun p => { p with active := false }
  if (buttons.any fun b => b.tabId == tabId)
      && (panels.any fun p => p.tabId == tabId) then
    let buttons := updateFirst (fun b => b.tabId == tabId)
      (fun b => { b with active := true, ariaSelected := "true" }) buttons
    let panels := updateFirst (fun p => p.tabId == tabId)
      (fun p => { p with active := true }) panels
    { s with
      buttons, panels,
      events := s.events
        ++ [.tabChanged tabId
              ((s.config.tabs.find? fun t => t.id == tabId).map (·.title))] }
  else
    { s with
      buttons, panels,
      events := s.events
        ++ [.dashboardError ("Tab elements not found for ID: " ++ toString tabId)
              "tab-activation"] }

/-- A keyboard key as switched on in `handleTabKeyNavigation`. -/
inductive Key where
  | arrowLeft
  | arrowRight
  | home
  | endKey
  | enter
  | space
  | otherKey
deriving Repr, DecidableEq

/-- Source method `handleTabKeyNavigation(e, currentButton)`.
`currentIndex` is the position of `currentButton` in the ordered trigger
sequence (the listener is installed on each button, so the button is a
member of the sequence and `indexOf` is non-negative). -/
def handleTabKeyNavigation (s : Dashboard) (key : Key) (currentIndex : Nat) :
    Dashboard :=
  let n := s.buttons.length
  match key with
  | .arrowLeft =>
    { s with focus := .tabButton (if currentIndex > 0 then currentIndex - 1 else n - 1) }
  | .arrowRight =>
    { s with focus := .tabButton (if currentIndex < n - 1 then currentIndex + 1 else 0) }
  | .home => { s with focus := .tabButton 0 }
  | .endKey => { s with focus := .tabButton (n - 1) }
  | .enter | .space =>
    match s.buttons[currentIndex]? with
    | some b => if b.tabId ≠ 0 then activateTab s b.tabId else s
    | none => s
  | .otherKey => s

/-- Source method `removeTab(tabId)`.  Mirrors the order of the source: the
length guard, the `findIndex` test, the splice, removal of the button and
panel elements, then the `getActiveTabId() === tabId` check — which runs
after the button has been removed from the document. -/
def removeTab (s : Dashboard) (tabId : Nat) : Dashboard :=
  if s.config.tabs.length ≤ 1 then
    { s with events := s.events
        ++ [.dashboardError "Cannot remove the last remaining tab" "tab-remove"] }
  else
    let tabIndex := s.config.tabs.findIdx fun t => t.id == tabId
    if tabIndex < s.config.tabs.length then
      let s₁ := { s with
        config := { s.config with tabs := s.config.tabs.eraseIdx tabIndex },
        buttons := s.buttons.eraseP (fun b => b.tabId == tabId),
        panels := s.panels.eraseP (fun p => p.tabId == tabId) }
      let s₂ :=
        if getActiveTabId s₁ = some tabId then
          match s₁.config.tabs with
          | t :: _ => activateTab s₁ t.id
          | [] => s₁
        else s₁
      { s₂ with events := s₂.events ++ [.tabRemoved tabId] }
    else
      { s with events := s.events
          ++ [.dashboardError ("Tab with ID " ++ toString tabId ++ " not found")
                "tab-remove"] }

/-- The object spread `\x7b ...old, ...newConfig \x7d` of `updateTabContent`:
every field named in the partial descriptor wins, the rest keep the stored
value. -/
def mergeTab (old : TabConfig) (p : PartialTab) : TabConfig :=
  { id := p.id.getD old.id,
    title := p.title.getD old.title,
    country := p.country.orElse fun _ => old.country,
    addressType := p.addressType.orElse fun _ => old.addressType }

/-- Source method `updateTabContent(tabId, newConfig)`.  Panel lookup first,
then the configuration index; the merge is stored before the re-render, so
a render-time exception (missing country data) leaves the merged
configuration in place but the panel HTML untouched. -/
def updateTabContent (s : Dashboard) (tabId : Nat) (newConfig : PartialTab) :
    Dashboard :=
  if (s.panels.find? fun p => p.tabId == tabId).isSome then
    let tabIndex := s.config.tabs.findIdx fun t => t.id == tabId
    if h : tabIndex < s.config.tabs.length then
      let merged := mergeTab s.config.tabs[tabIndex] newConfig
      let cfg := { s.config with tabs := s.config.tabs.set tabIndex merged }
      match populateTabContent cfg merged with
      | .ok html =>
        { s with
          config := cfg,
          panels := updateFirst (fun p => p.tabId == tabId)
            (fun p => { p with html }) s.panels,
          events := s.events ++ [.tabContentUpdated tabId] }
      | .error e =>
        { s with
          config := cfg,
          events := s.events ++ [.dashboardError e.message "tab-update"] }
    else
      { s with events := s.events
          ++ [.dashboardError
                ("Tab configuration not found for ID: " ++ toString tabId)
                "tab-update"] }
  else
    { s with events := s.events
        ++ [.dashboardError ("Tab panel not found for ID: " ++ toString tabId)
              "tab-update"] }

/-! ## Overlay surfaces -/

/-- Source method `closeNotificationModal()`: unconditionally removes the
active class, sets `aria-hidden` to true, focuses the notification button
and dispatches `notificationModalClosed` — there is no guard on whether
the modal was open. -/
def closeNotificationModal (s : Dashboard) : Dashboard :=
  { s with
    notifModal := { active := false, ariaHidden := "true" },
    focus := .notificationBtn,
    events := s.events ++ [.notificationModalClosed] }

/-- Source method `closeUserDropdown()`: unconditionally removes the active
class, sets the menu `aria-hidden` to true, focuses the dropdown trigger
and dispatches `userDropdownClosed`. -/
def closeUserDropdown (s : Dashboard) : Dashboard :=
  { s with
    dropdown := { active := false, menuAriaHidden := "true" },
    focus := .userDropdownTrigger,
    events := s.events ++ [.userDropdownClosed] }

/-! ## Timer formatting (bindStartTimerButton interval callback) -/

/-- JS `String.prototype.padStart(2, "0")`. -/
def padStart2 (s : String) : String :=
  if s.length ≥ 2 then s else String.mk (List.replicate (2 - s.length) '0') ++ s

/-- The interval callback of `bindStartTimerButton`: `elapsed` is the
millisecond difference `now - startTime`; the displayed text is
`[hours, minutes % 60, seconds % 60]` zero-padded and joined with ":". -/
def formatElapsedTime (elapsed : Nat) : String :=
  let seconds := elapsed / 1000
  let minutes := seconds / 60
  let hours := minutes / 60
  padStart2 (toString hours) ++ ":" ++ padStart2 (toString (minutes % 60))
    ++ ":" ++ padStart2 (toString (seconds % 60))

/-- Modelled from the spec wording of the claim: a clock rendering of a
total-second count as hours, minutes modulo 60 and seconds modulo 60, each
zero-padded to two digits and joined with colons. -/
def specClockFormat (totalSeconds : Nat) : String :=
  padStart2 (toString (totalSeconds / 3600)) ++ ":"
    ++ padStart2 (toString (totalSeconds / 60 % 60)) ++ ":"
    ++ padStart2 (toString (totalSeconds % 60))

/-! ## Concrete states used by witnesses and counterexamples -/

/-- A small live page: two tabs, tab 1 active, both overlays closed. -/
def demoState : Dashboard :=
  { config :=
      { tabs :=
          [ { id := 1, title := "A",
              country := some { code := "gb", name := "UK" },
              addressType := some "R" },
            { id := 2, title := "B",
              country := some { code := "us", name := "US" },
              addressType := some "C" } ],
        contentRows := defaultConfig.contentRows,
        sectionRows := defaultConfig.sectionRows },
    buttons :=
      [ { tabId := 1, active := true, ariaSelected := "true" },
        { tabId := 2, active := false, ariaSelected := "false" } ],
    panels :=
      [ { tabId := 1, active := true, html := "p1" },
        { tabId := 2, active := false, html := "p2" } ],
    notifModal := { active := false, ariaHidden := "true" },
    dropdown := { active := false, menuAriaHidden := "true" },
    focus := .noFocus,
    events := [] }

/-- A page holding its sole remaining tab. -/
def singleTabState : Dashboard :=
  { demoState with
    config := { demoState.config with
      tabs := [ { id := 5, title := "Only",
                  country := some { code := "gb", name := "UK" },
                  addressType := some "R" } ] },
    buttons := [ { tabId := 5, active := true, ariaSelected := "true" } ],
    panels := [ { tabId := 5, active := true, html := "p5" } ] }

/-- A partial descriptor (an `updateTabContent` patch) naming only the
title field. -/
def titlePatch : PartialTab := { title := some "New Title" }

/-! ## Helper lemmas -/

/-- Clearing the active class from every button leaves no active button. -/
theorem find?_active_clearButtons (l : List ButtonState) :
    (l.map fun b => { b with active := false, ariaSelected := "false" }).find?
      (fun b => b.active) = none := by
  apply List.find?_eq_none.mpr
  intro x hx
  simp only [List.mem_map] at hx
  obtain ⟨b, -, rfl⟩ := hx
  simp

/-- Erasing the button of a tab that is not the first active one does not
change which button is the first active one. -/
theorem find?_active_eraseP (tabId : Nat) (l : List ButtonState)
    (h : (l.find? fun b => b.active).map (·.tabId) ≠ some tabId) :
    (l.eraseP fun b => b.tabId == tabId).find? (fun b => b.active)
      = l.find? fun b => b.active := by
  induction l with
  | nil => rfl
  | cons b t ih =>
    by_cases hb : b.tabId = tabId
    · have hq : (b.tabId == tabId) = true := by simpa using hb
      rw [List.eraseP_cons, hq]
      simp only [cond_true]
      rw [List.find?_cons]
      cases hab : b.active with
      | true =>
        exfalso
        apply h
        rw [List.find?_cons]
        simp [hab, hb]
      | false => simp [hab]
    · have hq : (b.tabId == tabId) = false := by simpa using hb
      rw [List.eraseP_cons, hq]
      simp only [cond_false]
      rw [List.find?_cons, List.find?_cons]
      cases hab : b.active with
      | true => simp [hab]
      | false =>
        simp only [hab]
        apply ih
        rw [List.find?_cons, hab] at h
        exact h

/-! ## Claims -/

/-- C7: the running timer formats elapsed milliseconds as hours, minutes
modulo 60 and seconds modulo 60, zero-padded to two digits and joined with
colons, and 61 elapsed seconds display as 00:01:01. -/
theorem timer_format_is_hms :
    (∀ elapsed : Nat, formatElapsedTime elapsed = specClockFormat (elapsed / 1000))
    ∧ formatElapsedTime 61000 = "00:01:01" := by
  constructor
  · intro elapsed
    simp only [formatElapsedTime, specClockFormat, Nat.div_div_eq_div_mul]
  · rfl

/-- C6: the panel renderer depends only on the descriptor and the two row
templates, so two configurations agreeing on the templates render any
descriptor identically (and rendering twice from identical inputs is
literally the same value). -/
theorem panel_renderer_deterministic (c₁ c₂ : Config) (t : TabConfig)
    (hm : c₁.contentRows = c₂.contentRows) (hs : c₁.sectionRows = c₂.sectionRows) :
    populateTabContent c₁ t = populateTabContent c₂ t := by
  unfold populateTabContent generateContentRows generateSectionRows
  rw [hm, hs]

/-- Witness for C6 at two concrete configurations that share the templates
but differ in their tab lists. -/
theorem panel_renderer_deterministic_witness :
    populateTabContent defaultConfig
        { id := 3, title := "W", country := some { code := "ca", name := "Canada" },
          addressType := some "Industrial" }
      = populateTabContent { defaultConfig with tabs := [] }
        { id := 3, title := "W", country := some { code := "ca", name := "Canada" },
          addressType := some "Industrial" } :=
  panel_renderer_deterministic defaultConfig { defaultConfig with tabs := [] }
    { id := 3, title := "W", country := some { code := "ca", name := "Canada" },
      addressType := some "Industrial" } rfl rfl

/-- C2 counterexample: for the spec's own acceptance-test descriptor
(`addTab(\x7bid:7, title:"X", attributes:\x7b\x7d\x7d)`, i.e. no country
and no category data), panel synthesis does not complete: the country
marker cell reads `tabConfig.country.code` and raises a TypeError, so the
claim that rendering always completes with empty marker values is false. -/
theorem render_missing_country_aborts_counterexample :
    populateTabContent defaultConfig { id := 7, title := "X" }
      = .error countryUndefErr := rfl

/-- C2 amended: a descriptor without country data makes panel synthesis
abort with a TypeError at the country marker (the exception is caught at
the calling public operation, not inside the renderer); with country data
present synthesis completes, and a missing category attribute resolves the
category marker cell to the literal text "undefined", not to an empty
value. -/
theorem render_missing_attributes_amended (t u : TabConfig) (c : Country)
    (pfx : String) (ht : t.country = none) (hu : u.country = some c)
    (hua : u.addressType = none) :
    populateTabContent defaultConfig t = .error countryUndefErr
    ∧ (populateTabContent defaultConfig u).isOk = true
    ∧ renderSectionCell u pfx
        { heading := "Address Type", value := "", isAddressType := true }
        = cellItemHtml (pfx ++ "Address Type") "undefined" := by
  obtain ⟨tid, ttitle, tc, ta⟩ := t
  obtain ⟨uid, utitle, uc, ua⟩ := u
  simp only at ht hu hua
  subst ht
  subst hu
  subst hua
  exact ⟨rfl, rfl, rfl⟩

/-- Witness for the amended C2 at the descriptor of the spec's acceptance
test (with and without country data). -/
theorem render_missing_attributes_amended_witness :
    populateTabContent defaultConfig { id := 7, title := "X" }
      = .error countryUndefErr
    ∧ (populateTabContent defaultConfig
        { id := 7, title := "X",
          country := some { code := "gb", name := "United Kingdom" } }).isOk = true
    ∧ renderSectionCell
        { id := 7, title := "X",
          country := some { code := "gb", name := "United Kingdom" } }
        "Tab 7 - "
        { heading := "Address Type", value := "", isAddressType := true }
        = cellItemHtml ("Tab 7 - " ++ "Address Type") "undefined" :=
  render_missing_attributes_amended
    { id := 7, title := "X" }
    { id := 7, title := "X",
      country := some { code := "gb", name := "United Kingdom" } }
    { code := "gb", name := "United Kingdom" } "Tab 7 - " rfl rfl rfl

set_option maxRecDepth 4000 in
/-- C4 counterexample: for tab id 2 (not the first tab) the rendered panel
begins with the bare title in the `h2` heading; it does not begin with the
prefixed form `Tab 2 - `, so the claim that the title heading carries the
per-tab prefix on every tab but the first is false. -/
theorem title_heading_prefix_counterexample :
    ((populateTabContent defaultConfig
        { id := 2, title := "T",
          country := some { code := "us", name := "United States" },
          addressType := some "Commercial" }).toOption.map
      (fun html =>
        (decide (html.data.take
            "\n            <h2 class=\"tab-content__heading\">T</h2>".data.length
            = "\n            <h2 class=\"tab-content__heading\">T</h2>".data),
          decide (html.data.take
            "\n            <h2 class=\"tab-content__heading\">Tab 2 - ".data.length
            = "\n            <h2 class=\"tab-content__heading\">Tab 2 - ".data))))
      = some (true, false) := by decide

/-- Everything of a rendered panel that precedes the section-title tag;
the explicit decomposition witness for the amended C4. -/
def panelHeadPre (title content : String) : String :=
  "\n            <h2 class=\"tab-content__heading\">"
  ++ (title
  ++ ("</h2>\n            <div class=\"tab-content__rows\">\n                "
  ++ (content
  ++ "\n                \n                <!-- Section Heading -->\n                <div class=\"tab-content__section-heading\">\n                    ")))

/-- C4 amended: every successfully rendered panel begins with a heading
that is the descriptor's title verbatim — no tab ever carries a prefix on
the title heading.  The per-tab disambiguating label (empty exactly when
the descriptor's id equals 1, not when the tab is first in configuration
order) sits on the panel's section heading instead. -/
theorem title_heading_unprefixed_amended (cfg : Config) (t : TabConfig)
    (html : String) (h : populateTabContent cfg t = .ok html) :
    (∃ rest, html =
        "\n            <h2 class=\"tab-content__heading\">"
        ++ (t.title
        ++ ("</h2>\n            <div class=\"tab-content__rows\">\n                "
        ++ rest)))
    ∧ (∃ pre post, html =
        pre ++ ("<h3 class=\"tab-content__section-title\">"
          ++ (tabPfx t ++ ("Lorem Ipsum</h3>" ++ post))))
    ∧ tabPfx t = (if t.id = 1 then "" else "Tab " ++ toString t.id ++ " - ") := by
  unfold populateTabContent at h
  split at h
  · exact absurd h (by simp)
  · rename_i content hg
    rw [Except.ok.injEq] at h
    subst h
    refine ⟨⟨_, rfl⟩,
      ⟨panelHeadPre t.title content,
        "\n                </div>\n                \n                "
          ++ (generateSectionRows cfg t (tabPfx t)
          ++ "\n            </div>\n        "), ?_⟩, rfl⟩
    simp only [panelHtml, panelHeadPre, String.append_assoc]

/-- Witness for the amended C4 on an empty-template configuration (tab
id 1, title X), whose rendered panel is small enough to name directly. -/
theorem title_heading_unprefixed_amended_witness :
    (∃ rest, panelHtml "X" "" "" "" =
        "\n            <h2 class=\"tab-content__heading\">"
        ++ ("X"
        ++ ("</h2>\n            <div class=\"tab-content__rows\">\n                "
        ++ rest)))
    ∧ (∃ pre post, panelHtml "X" "" "" "" =
        pre ++ ("<h3 class=\"tab-content__section-title\">"
          ++ (tabPfx { id := 1, title := "X" }
            ++ ("Lorem Ipsum</h3>" ++ post))))
    ∧ tabPfx { id := 1, title := "X" }
        = (if (1 : Nat) = 1 then "" else "Tab " ++ toString (1 : Nat) ++ " - ") :=
  title_heading_unprefixed_amended
    { tabs := [], contentRows := [], sectionRows := [] }
    { id := 1, title := "X" } (panelHtml "X" "" "" "") rfl

/-- C1 counterexample: with tab 1 active, activating the unknown id 99
reports the error but erases the previous ActiveSelection instead of
leaving it exactly as it was before the call. -/
theorem activate_unknown_clears_selection_counterexample :
    getActiveTabId demoState = some 1
    ∧ getActiveTabId (activateTab demoState 99) = none := by decide

/-- C1 amended: for a tabId that does not resolve to both a trigger and a
panel, `activateTab` reports a `dashboardError` event carrying context
`tab-activation` and the unresolved id and raises nothing past its
boundary, but it first strips the active markers from every trigger and
panel, so the ActiveSelection is empty after the failed call rather than
unchanged. -/
theorem activate_failure_amended (s : Dashboard) (tabId : Nat)
    (h : ((s.buttons.any fun b => b.tabId == tabId)
          && (s.panels.any fun p => p.tabId == tabId)) = false) :
    activateTab s tabId =
      { s with
        buttons := s.buttons.map fun b =>
          { b with active := false, ariaSelected := "false" },
        panels := s.panels.map fun p => { p with active := false },
        events := s.events
          ++ [.dashboardError ("Tab elements not found for ID: " ++ toString tabId)
                "tab-activation"] }
    ∧ getActiveTabId (activateTab s tabId) = none := by
  have hc : (((s.buttons.map fun b =>
          { b with active := false, ariaSelected := "false" }).any
        fun b => b.tabId == tabId)
      && ((s.panels.map fun p => { p with active := false }).any
        fun p => p.tabId == tabId)) = false := by
    rw [List.any_map, List.any_map]
    exact h
  have heq : activateTab s tabId =
      { s with
        buttons := s.buttons.map fun b =>
          { b with active := false, ariaSelected := "false" },
        panels := s.panels.map fun p => { p with active := false },
        events := s.events
          ++ [.dashboardError ("Tab elements not found for ID: " ++ toString tabId)
                "tab-activation"] } := by
    unfold activateTab
    simp only [hc, Bool.false_eq_true, if_false]
  refine ⟨heq, ?_⟩
  rw [heq]
  simp only [getActiveTabId, find?_active_clearButtons, Option.map_none']

/-- Witness for the amended C1 on the concrete two-tab page and the
unresolved id 99. -/
theorem activate_failure_amended_witness :
    activateTab demoState 99 =
      { demoState with
        buttons := demoState.buttons.map fun b =>
          { b with active := false, ariaSelected := "false" },
        panels := demoState.panels.map fun p => { p with active := false },
        events := demoState.events
          ++ [.dashboardError ("Tab elements not found for ID: " ++ toString 99)
                "tab-activation"] }
    ∧ getActiveTabId (activateTab demoState 99) = none :=
  activate_failure_amended demoState 99 (by decide)

/-- C3: evaluation of `removeTab` at both inputs of the claim.  Removing
the sole remaining tab reports a `tab-remove` error and leaves the
configuration unchanged (first conjunct, as the claim states).  But
removing the currently active tab with another tab remaining leaves no tab
active and publishes no `tabChanged` event: the trigger button is removed
from the document before the `getActiveTabId() === tabId` check, so the
re-activation documented by the code's own comment never fires. -/
theorem remove_tab_reactivation_bug :
    removeTab singleTabState 5 =
      { singleTabState with
        events := [.dashboardError "Cannot remove the last remaining tab"
            "tab-remove"] }
    ∧ getActiveTabId (removeTab demoState 1) = none
    ∧ (removeTab demoState 1).events = [.tabRemoved 1]
    ∧ (removeTab demoState 1).config.tabs.map TabConfig.id = [2] := by decide

/-- C5 counterexample: calling `closeNotificationModal` on the page whose
notification modal is already closed still publishes a
`notificationModalClosed` event and moves focus to the trigger, so the
already-closed `close()` call is not the state-silent no-op the claim
describes. -/
theorem close_closed_surface_counterexample :
    demoState.notifModal.active = false
    ∧ (closeNotificationModal demoState).events ≠ demoState.events
    ∧ (closeNotificationModal demoState).focus ≠ demoState.focus := by decide

/-- C5 amended: `close()` on an already-closed surface raises no error and
leaves the surface closed (its open-state and `aria-hidden` marker are
unchanged, making the call idempotent on the surface state), but it still
publishes the surface's Closed event and moves focus back to the surface's
trigger. -/
theorem close_closed_surface_amended (s : Dashboard)
    (hn : s.notifModal = { active := false, ariaHidden := "true" })
    (hd : s.dropdown = { active := false, menuAriaHidden := "true" }) :
    closeNotificationModal s =
      { s with
          focus := .notificationBtn,
          events := s.events ++ [.notificationModalClosed] }
    ∧ closeUserDropdown s =
      { s with
          focus := .userDropdownTrigger,
          events := s.events ++ [.userDropdownClosed] } := by
  obtain ⟨cfg, btns, pnls, nm, dd, fc, ev⟩ := s
  simp only at hn hd
  subst hn
  subst hd
  exact ⟨rfl, rfl⟩

/-- Witness for the amended C5 on the concrete page with both surfaces
closed. -/
theorem close_closed_surface_amended_witness :
    closeNotificationModal demoState =
      { demoState with
          focus := .notificationBtn,
          events := demoState.events ++ [.notificationModalClosed] }
    ∧ closeUserDropdown demoState =
      { demoState with
          focus := .userDropdownTrigger,
          events := demoState.events ++ [.userDropdownClosed] } :=
  close_closed_surface_amended demoState rfl rfl

/-- C8: over the ordered trigger sequence, ArrowLeft and ArrowRight move
focus to the previous and next trigger with wraparound at both ends, Home
and End move focus to the first and last trigger, a pure focus change
touches no other component of the state (in particular the ActiveSelection
and the event list), and Enter or Space on the focused trigger invokes
`activateTab` for that trigger's tab. -/
theorem keyboard_navigation_contract (s : Dashboard) (idx : Nat)
    (b : ButtonState) (hidx : idx < s.buttons.length)
    (hb : s.buttons[idx]? = some b) (hpos : 0 < b.tabId) :
    handleTabKeyNavigation s .arrowLeft idx
        = { s with
            focus := .tabButton ((idx + s.buttons.length - 1) % s.buttons.length) }
    ∧ handleTabKeyNavigation s .arrowRight idx
        = { s with focus := .tabButton ((idx + 1) % s.buttons.length) }
    ∧ handleTabKeyNavigation s .home idx = { s with focus := .tabButton 0 }
    ∧ handleTabKeyNavigation s .endKey idx
        = { s with focus := .tabButton (s.buttons.length - 1) }
    ∧ (∀ f : Focus, getActiveTabId { s with focus := f } = getActiveTabId s
        ∧ ({ s with focus := f } : Dashboard).events = s.events
        ∧ ({ s with focus := f } : Dashboard).config = s.config
        ∧ ({ s with focus := f } : Dashboard).buttons = s.buttons
        ∧ ({ s with focus := f } : Dashboard).panels = s.panels)
    ∧ handleTabKeyNavigation s .enter idx = activateTab s b.tabId
    ∧ handleTabKeyNavigation s .space idx = activateTab s b.tabId
    ∧ handleTabKeyNavigation s .otherKey idx = s := by
  have hn : 0 < s.buttons.length := Nat.lt_of_le_of_lt (Nat.zero_le idx) hidx
  refine ⟨?_, ?_, rfl, rfl, fun f => ⟨rfl, rfl, rfl, rfl, rfl⟩, ?_, ?_, rfl⟩
  · have hw : (if idx > 0 then idx - 1 else s.buttons.length - 1)
        = (idx + s.buttons.length - 1) % s.buttons.length := by
      rcases Nat.eq_zero_or_pos idx with h0 | h0
      · subst h0
        simp [Nat.mod_eq_of_lt (Nat.sub_lt hn Nat.one_pos)]
      · rw [if_pos h0]
        have h1 : idx + s.buttons.length - 1 = (idx - 1) + s.buttons.length := by
          omega
        rw [h1, Nat.add_mod_right, Nat.mod_eq_of_lt (by omega)]
    simp only [handleTabKeyNavigation, hw]
  · have hw : (if idx < s.buttons.length - 1 then idx + 1 else 0)
        = (idx + 1) % s.buttons.length := by
      by_cases hlt : idx < s.buttons.length - 1
      · rw [if_pos hlt, Nat.mod_eq_of_lt (by omega)]
      · have hx : idx = s.buttons.length - 1 := by omega
        rw [if_neg hlt, hx]
        have h2 : s.buttons.length - 1 + 1 = s.buttons.length := by omega
        rw [h2, Nat.mod_self]
    simp only [handleTabKeyNavigation, hw]
  · simp only [handleTabKeyNavigation, hb]
    rw [if_pos (Nat.pos_iff_ne_zero.mp hpos)]
  · simp only [handleTabKeyNavigation, hb]
    rw [if_pos (Nat.pos_iff_ne_zero.mp hpos)]

/-- Witness for C8 on the concrete two-button page, focused on the first
trigger. -/
theorem keyboard_navigation_contract_witness :
    handleTabKeyNavigation demoState .arrowLeft 0
      = { demoState with
          focus := .tabButton ((0 + demoState.buttons.length - 1)
            % demoState.buttons.length) }
    ∧ handleTabKeyNavigation demoState .space 0 = activateTab demoState 1 := by
  have h := keyboard_navigation_contract demoState 0
    { tabId := 1, active := true, ariaSelected := "true" }
    (by decide) (by decide) (by decide)
  exact ⟨h.1, h.2.2.2.2.2.2.1⟩

/-- C9: for a tab present in both the panel list and the configuration,
`updateTabContent` replaces the stored descriptor with the shallow merge of
the old descriptor and the partial descriptor — every field named in the
partial descriptor takes its new value, every unnamed field keeps its
stored value — and every other descriptor in the configuration is left
unchanged. -/
theorem update_tab_content_shallow_merge (s : Dashboard) (tabId : Nat)
    (p : PartialTab) (i : Nat)
    (hpanel : (s.panels.find? fun pa => pa.tabId == tabId).isSome = true)
    (hi : (s.config.tabs.findIdx fun t => t.id == tabId) = i)
    (hidx : i < s.config.tabs.length) :
    (updateTabContent s tabId p).config.tabs
        = s.config.tabs.set i (mergeTab s.config.tabs[i] p)
    ∧ (∀ j, j ≠ i →
        (updateTabContent s tabId p).config.tabs[j]? = s.config.tabs[j]?)
    ∧ mergeTab s.config.tabs[i] p
        = { id := p.id.getD s.config.tabs[i].id,
            title := p.title.getD s.config.tabs[i].title,
            country := p.country.orElse fun _ => s.config.tabs[i].country,
            addressType := p.addressType.orElse fun _ => s.config.tabs[i].addressType } := by
  have hmain : (updateTabContent s tabId p).config.tabs
      = s.config.tabs.set i (mergeTab s.config.tabs[i] p) := by
    unfold updateTabContent
    simp only [hpanel, hi, if_true]
    rw [dif_pos hidx]
    split
    · rfl
    · rfl
  refine ⟨hmain, ?_, rfl⟩
  intro j hj
  rw [hmain]
  exact List.getElem?_set_ne (Ne.symm hj)

/-- Witness for C9: updating tab 2 of the concrete page with a partial
descriptor naming only the title. -/
theorem update_tab_content_shallow_merge_witness :
    (updateTabContent demoState 2 titlePatch).config.tabs
      = demoState.config.tabs.set 1
          (mergeTab
            { id := 2, title := "B",
              country := some { code := "us", name := "US" },
              addressType := some "C" }
            titlePatch) := by
  have h := update_tab_content_shallow_merge demoState 2 titlePatch 1
    (by decide) (by decide) (by decide)
  exact h.1

/-- C10: removing an existing, non-active tab from a page with more than
one tab leaves the ActiveSelection exactly as it was and publishes only
`tabRemoved` — no re-activation and no `tabChanged` event. -/
theorem remove_nonactive_tab_preserves_selection (s : Dashboard) (tabId : Nat)
    (hlen : 1 < s.config.tabs.length)
    (hfound : (s.config.tabs.findIdx fun t => t.id == tabId) < s.config.tabs.length)
    (hact : getActiveTabId s ≠ some tabId) :
    getActiveTabId (removeTab s tabId) = getActiveTabId s
    ∧ (removeTab s tabId).events = s.events ++ [.tabRemoved tabId] := by
  have hsel : (s.buttons.eraseP fun b => b.tabId == tabId).find? (fun b => b.active)
      = s.buttons.find? fun b => b.active :=
    find?_active_eraseP tabId s.buttons hact
  have hcond : getActiveTabId { s with
      config := { s.config with
        tabs := s.config.tabs.eraseIdx (s.config.tabs.findIdx fun t => t.id == tabId) },
      buttons := s.buttons.eraseP fun b => b.tabId == tabId,
      panels := s.panels.eraseP fun p => p.tabId == tabId } ≠ some tabId := by
    simp only [getActiveTabId]
    rw [hsel]
    exact hact
  unfold removeTab
  rw [if_neg (by omega : ¬ s.config.tabs.length ≤ 1), if_pos hfound]
  simp only []
  rw [if_neg hcond]
  constructor
  · simp only [getActiveTabId]
    exact congrArg (Option.map _) hsel
  · rfl

/-- Witness for C10 on the concrete page: removing tab 2 while tab 1 is
active. -/
theorem remove_nonactive_tab_preserves_selection_witness :
    getActiveTabId (removeTab demoState 2) = getActiveTabId demoState
    ∧ (removeTab demoState 2).events = demoState.events ++ [.tabRemoved 2] :=
  remove_nonactive_tab_preserves_selection demoState 2
    (by decide) (by decide) (by decide)

end WebMotion
